import Mathlib

/-!
Verification of the `knowledges` review-comment collection pipeline.

The development shallowly embeds the Go sources of the repository:

* `internal/collector/filter.go` — the content filter (`IsUseful`,
  `isWordMatch`, `HasMinimumLength`, `FilterComments`);
* `internal/llm/driver.go` — the analysis driver (`AnalyzeComment`,
  `extractJSON`); the external process and `encoding/json` are modelled as
  function parameters;
* `internal/github/gh_wrapper.go` — the review-thread conversion inside
  `GetPRComments`; RFC3339 parsing (`time.Parse`) is a function parameter;
* `cmd/kcollector/main.go` — the orchestration loop, `saveDocument`,
  `getProcessedPRNumbers`, `filterUnprocessedPRs`, `deletePRData`; the
  SQLite `documents` table (schema of `internal/database/db.go`) is
  modelled as a list of rows with an auto-increment counter;
* `pkg/config/config.go` — the default-filling logic of `Load`.

Go strings are Lean `String`s; the handful of `strings` / `unicode`
functions the sources use are reimplemented below.  `time.Time` values are
abstract `Nat` timestamps and `float64` relevance scores are rationals;
no claim depends on arithmetic over either.
-/

namespace Knowledges

/-! ### Go string primitives -/

/-- The white-space code points of Go's `unicode.IsSpace`
(the Unicode `White_Space` property). -/
def goIsSpace (c : Char) : Bool :=
  (9 ≤ c.toNat && c.toNat ≤ 13) || c.toNat = 32 || c.toNat = 0x85 ||
  c.toNat = 0xA0 || c.toNat = 0x1680 ||
  (0x2000 ≤ c.toNat && c.toNat ≤ 0x200A) ||
  c.toNat = 0x2028 || c.toNat = 0x2029 ||
  c.toNat = 0x202F || c.toNat = 0x205F || c.toNat = 0x3000

/-- Drop the characters satisfying `p` from both ends of a character list. -/
def dropAround (p : Char → Bool) (cs : List Char) : List Char :=
  ((cs.dropWhile p).reverse.dropWhile p).reverse

/-- Go `strings.TrimSpace`. -/
def trimSpace (s : String) : String := ⟨dropAround goIsSpace s.toList⟩

/-- Case mapping of `strings.ToLower`, restricted to ASCII letters;
non-ASCII characters occurring in this code base (emoji) are fixed points
of `unicode.ToLower`, so they are left unchanged. -/
def goToLowerChar (c : Char) : Char :=
  if 65 ≤ c.toNat ∧ c.toNat ≤ 90 then Char.ofNat (c.toNat + 32) else c

/-- Go `strings.ToLower` (ASCII case mapping, see `goToLowerChar`). -/
def goToLower (s : String) : String := ⟨s.toList.map goToLowerChar⟩

/-- Go `strings.EqualFold` on the ASCII fragment: case-insensitive
equality via the case mapping of `goToLowerChar`. -/
def goEqualFold (a b : String) : Bool := goToLower a == goToLower b

/-- Go `len` on a string: the UTF-8 byte count. -/
def goLen (s : String) : Nat := s.toList.foldl (fun n c => n + c.utf8Size) 0

/-- Substring occurrence on character lists (helper for `goContains`). -/
def containsSubL (hay needle : List Char) : Bool :=
  match hay with
  | [] => needle.isEmpty
  | _ :: tl => needle.isPrefixOf hay || containsSubL tl needle

/-- Go `strings.Contains`. -/
def goContains (hay needle : String) : Bool := containsSubL hay.toList needle.toList

/-- Accumulator variant of `strings.Fields`: split around maximal runs of
white space (helper for `goFields`). -/
def fieldsAux : List Char → List Char → List (List Char)
  | [], acc => if acc.isEmpty then [] else [acc.reverse]
  | c :: cs, acc =>
    if goIsSpace c then
      if acc.isEmpty then fieldsAux cs [] else acc.reverse :: fieldsAux cs []
    else fieldsAux cs (c :: acc)

/-- Go `strings.Fields`. -/
def goFields (s : String) : List String := (fieldsAux s.toList []).map fun w => ⟨w⟩

/-- Go `strings.Trim s cutset`: remove the characters of `cutset` from
both ends of `s`. -/
def goTrim (s cutset : String) : String :=
  ⟨dropAround (cutset.toList.contains ·) s.toList⟩

/-! ### Data model (`internal/github/gh_wrapper.go`, `pkg/models/document.go`) -/

/-- `github.Author`. -/
structure Author where
  login : String
deriving Repr, DecidableEq

/-- `github.Comment`: a review comment with the file path and line number
of its enclosing thread.  `CreatedAt` (`time.Time`) is an abstract `Nat`
timestamp. -/
structure Comment where
  author : Author
  body : String
  createdAt : Nat
  url : String
  filePath : String
  lineNumber : Int
deriving Repr, DecidableEq

/-- `github.PullRequest` (labels carry only their name). -/
structure PullRequest where
  number : Int
  title : String
  url : String
  createdAt : Nat
  author : Author
  labels : List String
deriving Repr, DecidableEq

/-! ### Content filter (`internal/collector/filter.go`) -/

/-- `collector.CommentFilter`. -/
structure CommentFilter where
  minLength : Nat
  excludePatterns : List String
  excludeAuthors : List String
deriving Repr, DecidableEq

/-- `collector.NewCommentFilter`: the curated default phrase and author
lists. -/
def NewCommentFilter : CommentFilter where
  minLength := 10
  excludePatterns :=
    [ "lgtm", "looks good to me", "approved", "👍", "✅", "+1",
      "thanks", "thank you", "done", "fixed", "ok", "sure", "yes",
      "no", "nope", "agree", "agreed",
      "automatically generated", "bumps version", "dependency update" ]
  excludeAuthors :=
    [ "github-actions[bot]", "dependabot[bot]", "renovate[bot]", "codecov[bot]" ]

/-- `(*CommentFilter).isWordMatch`: the pattern equals some
whitespace-separated word of `text` after trimming the punctuation
characters `.,!?;:` from the word's ends. -/
def isWordMatch (text pattern : String) : Bool :=
  (goFields text).any fun word => goTrim word ".,!?;:" == pattern

/-- `(*CommentFilter).HasMinimumLength`: the trimmed body has at least
`minLength` bytes. -/
def HasMinimumLength (f : CommentFilter) (body : String) : Bool :=
  f.minLength ≤ goLen (trimSpace body)

/-- `(*CommentFilter).IsUseful`: denylisted author, short body, and exact
or whole-word phrase match each make a comment not useful. -/
def IsUseful (f : CommentFilter) (comment : Comment) : Bool :=
  if f.excludeAuthors.any fun a => goEqualFold comment.author.login a then false
  else if !(HasMinimumLength f comment.body) then false
  else
    let bodyLower := goToLower (trimSpace comment.body)
    if f.excludePatterns.any fun pattern =>
        goContains bodyLower pattern &&
          (bodyLower == pattern || isWordMatch bodyLower pattern) then false
    else true

/-- `(*CommentFilter).FilterComments`: keep the useful comments in input
order. -/
def FilterComments (f : CommentFilter) (comments : List Comment) : List Comment :=
  comments.filter (IsUseful f)

/-! ### Analysis driver (`internal/llm/driver.go`) -/

/-- `llm.AnalysisResult` (`relevance_score` is `float64` in Go; no claim
performs arithmetic on it, so it is a rational here). -/
structure AnalysisResult where
  summary : String
  type : String
  tags : List String
  relevanceScore : Rat
deriving Repr, DecidableEq

/-- The backquote character (code point 96). -/
def backquoteChar : Char := Char.ofNat 96

/-- The opening curly bracket (code point 123). -/
def lbraceChar : Char := Char.ofNat 123

/-- The closing curly bracket (code point 125). -/
def rbraceChar : Char := Char.ofNat 125

/-- The three-backquote code fence delimiter. -/
def fenceDelim : List Char := [backquoteChar, backquoteChar, backquoteChar]

/-- Body part of the code-block pattern: one or more non-backquote
characters followed immediately by a closing fence; being greedy and
unable to cross a backquote, the body is exactly the maximal
non-backquote run. -/
def codeBlockTail (t : List Char) : Option (List Char) :=
  let run := t.takeWhile fun c => c != backquoteChar
  if run.isEmpty then none
  else if fenceDelim.isPrefixOf (t.drop run.length) then some run else none

/-- After an opening fence: the optional greedy `json` tag, the optional
greedy newline, then the body — the four consume/skip combinations are
tried in backtracking order. -/
def codeBlockAfterFence (t : List Char) : Option (List Char) :=
  if ['j', 's', 'o', 'n'].isPrefixOf t then
    let u := t.drop 4
    (match u with
     | '\n' :: v => codeBlockTail v <|> codeBlockTail u
     | _ => codeBlockTail u) <|> codeBlockTail t
  else
    match t with
    | '\n' :: v => codeBlockTail v <|> codeBlockTail t
    | _ => codeBlockTail t

/-- One match attempt of the code-block pattern at a given suffix of the
text. -/
def codeBlockAt (cs : List Char) : Option (List Char) :=
  if fenceDelim.isPrefixOf cs then codeBlockAfterFence (cs.drop 3) else none

/-- Leftmost-match search: try the match attempt `f` at every suffix,
earliest start position first. -/
def scanSuffixes (f : List Char → Option α) : List Char → Option α
  | [] => f []
  | c :: cs => f (c :: cs) <|> scanSuffixes f cs

/-- The code-fence extraction of `extractJSON`: the capture of the first
match of the fenced-block pattern, if any. -/
def extractCodeBlock (s : String) : Option String :=
  (scanSuffixes codeBlockAt s.toList).map fun cs => ⟨cs⟩

/-- Neither curly bracket. -/
def nonBrace (c : Char) : Bool := c != lbraceChar && c != rbraceChar

/-- Scan of the brace pattern after the opening bracket and its following
non-brace run: repeatedly consume one-level nested bracket groups each
followed by a non-brace run, then the closing bracket.  Returns the
number of characters consumed.  The fuel bounds the recursion; every
recursive step consumes at least two characters, so `length + 1` fuel
never runs out. -/
def jsonLoopF : Nat → List Char → Option Nat
  | 0, _ => none
  | _ + 1, [] => none
  | fuel + 1, c :: rest =>
    if c = rbraceChar then some 1
    else if c = lbraceChar then
      let b := rest.takeWhile nonBrace
      match rest.drop b.length with
      | d :: r2 =>
        if d = rbraceChar then
          let tail := r2.takeWhile nonBrace
          match jsonLoopF fuel (r2.drop tail.length) with
          | some n => some (1 + b.length + 1 + tail.length + n)
          | none => none
        else none
      | [] => none
    else none

/-- One match attempt of the brace pattern at a given suffix of the
text. -/
def jsonObjAt (cs : List Char) : Option (List Char) :=
  match cs with
  | c :: rest =>
    if c = lbraceChar then
      let a := rest.takeWhile nonBrace
      match jsonLoopF (cs.length + 1) (rest.drop a.length) with
      | some n => some (cs.take (1 + a.length + n))
      | none => none
    else none
  | [] => none

/-- The raw-text bracket extraction of `extractJSON`: the first match of
the single-nesting-level brace-object pattern, if any. -/
def extractBraceObj (s : String) : Option String :=
  (scanSuffixes jsonObjAt s.toList).map fun cs => ⟨cs⟩

/-- `llm.extractJSON`: take the content of a fenced code block when one
is present, else the first brace-object match in the raw output, else the
whole output; the selected text is space-trimmed. -/
def extractJSON (output : String) : String :=
  match extractCodeBlock output with
  | some m => trimSpace m
  | none =>
    match extractBraceObj output with
    | some j => trimSpace j
    | none => trimSpace output

/-- `(*llm.Driver).AnalyzeComment`.  The external process behind
`CommandExecutor.Execute` is the function parameter `execute` and
`encoding/json.Unmarshal` is the parameter `unmarshal` (`none` when the
text is not valid JSON for `AnalysisResult`). -/
def AnalyzeComment (execute : String → Except String String)
    (unmarshal : String → Option AnalysisResult) (prompt : String) :
    Except String AnalysisResult :=
  if prompt = "" then Except.error "prompt cannot be empty"
  else
    match execute prompt with
    | Except.error e => Except.error ("LLM command failed: " ++ e)
    | Except.ok output =>
      if output = "" then Except.error "LLM returned empty response"
      else
        match unmarshal (extractJSON output) with
        | none => Except.error "failed to parse LLM output"
        | some result => Except.ok result

/-- `AnalyzeComment` against a stateful external driver: `execute n` is
the reply the external process gives to its `n`-th invocation, and the
pair's second component records how many invocations the call performed.
The source calls `Execute` at most once, namely when the prompt is
non-empty. -/
def AnalyzeCommentAttempts (execute : Nat → Except String String)
    (unmarshal : String → Option AnalysisResult) (prompt : String) :
    Except String AnalysisResult × Nat :=
  if prompt = "" then (Except.error "prompt cannot be empty", 0)
  else (AnalyzeComment (fun _ => execute 1) unmarshal prompt, 1)

/-! ### Configuration defaults (`pkg/config/config.go`) -/

/-- `config.RetryConfig` (durations are `time.Duration`, i.e. signed
nanosecond counts). -/
structure RetryConfig where
  maxAttempts : Int
  initialDelay : Int
  maxDelay : Int
deriving Repr, DecidableEq

/-- `config.DriverConfig`. -/
structure DriverConfig where
  command : String
  args : List String
deriving Repr, DecidableEq

/-- `config.LLMConfig` (the `drivers` map is an association list). -/
structure LLMConfig where
  primary : String
  parallel : Int
  retry : RetryConfig
  drivers : List (String × DriverConfig)
deriving Repr, DecidableEq

/-- `config.GitHubConfig`. -/
structure GitHubConfig where
  repositories : List String
deriving Repr, DecidableEq

/-- `config.DatabaseConfig`. -/
structure DatabaseConfig where
  path : String
deriving Repr, DecidableEq

/-- `config.CollectionConfig`. -/
structure CollectionConfig where
  batchSize : Int
  maxPRsPerRun : Int
deriving Repr, DecidableEq

/-- `config.ServerConfig`. -/
structure ServerConfig where
  port : Int
  readTimeout : Int
  writeTimeout : Int
deriving Repr, DecidableEq

/-- `config.Config`. -/
structure Config where
  github : GitHubConfig
  llm : LLMConfig
  database : DatabaseConfig
  collection : CollectionConfig
  server : ServerConfig
deriving Repr, DecidableEq

/-- Go `time.Second` in nanoseconds. -/
def timeSecond : Int := 1000000000

/-- The default-filling block of `config.Load`, applied to the structure
decoded from YAML (zero values stand for fields the file left unset). -/
def applyLoadDefaults (cfg : Config) : Config :=
  let cfg := if cfg.llm.primary = "" then
    { cfg with llm := { cfg.llm with primary := "claude" } } else cfg
  let cfg := if cfg.llm.parallel = 0 then
    { cfg with llm := { cfg.llm with parallel := 3 } } else cfg
  let cfg := if cfg.collection.batchSize = 0 then
    { cfg with collection := { cfg.collection with batchSize := 5 } } else cfg
  let cfg := if cfg.collection.maxPRsPerRun = 0 then
    { cfg with collection := { cfg.collection with maxPRsPerRun := 100 } } else cfg
  let cfg := if cfg.server.port = 0 then
    { cfg with server := { cfg.server with port := 8080 } } else cfg
  let cfg := if cfg.server.readTimeout = 0 then
    { cfg with server := { cfg.server with readTimeout := 30 } } else cfg
  let cfg := if cfg.server.writeTimeout = 0 then
    { cfg with server := { cfg.server with writeTimeout := 30 } } else cfg
  let cfg := if cfg.llm.retry.maxAttempts = 0 then
    { cfg with llm := { cfg.llm with retry := { cfg.llm.retry with maxAttempts := 3 } } } else cfg
  let cfg := if cfg.llm.retry.initialDelay = 0 then
    { cfg with llm := { cfg.llm with retry := { cfg.llm.retry with initialDelay := timeSecond } } } else cfg
  let cfg := if cfg.llm.retry.maxDelay = 0 then
    { cfg with llm := { cfg.llm with retry := { cfg.llm.retry with maxDelay := 10 * timeSecond } } } else cfg
  cfg

/-- A configuration whose every field is the Go zero value, as decoded
from an empty YAML document. -/
def zeroConfig : Config where
  github := { repositories := [] }
  llm := { primary := "", parallel := 0,
           retry := { maxAttempts := 0, initialDelay := 0, maxDelay := 0 },
           drivers := [] }
  database := { path := "" }
  collection := { batchSize := 0, maxPRsPerRun := 0 }
  server := { port := 0, readTimeout := 0, writeTimeout := 0 }

/-! ### Persistence (`cmd/kcollector/main.go` and the `documents` schema
of `internal/database/db.go`) -/

/-- `pkg/models.Document`. -/
structure Document where
  id : Nat
  summary : String
  originalComment : String
  threadContext : String
  filePath : String
  directoryPath : String
  language : String
  lineNumber : Option Int
  repository : String
  prNumber : Int
  prTitle : String
  prURL : String
  commentURL : String
  author : String
  commentType : String
  tags : List String
  relevanceScore : Rat
  commentedAt : Nat
  collectedAt : Nat
  updatedAt : Nat
deriving Repr, DecidableEq

/-- One row of the `documents` table, with exactly the columns the
`saveDocument` INSERT provides plus the auto-increment `id`
(`line_number` and `thread_context` are never inserted). -/
structure DocRow where
  id : Nat
  summary : String
  originalComment : String
  filePath : String
  directoryPath : String
  language : String
  repository : String
  prNumber : Int
  prTitle : String
  prURL : String
  commentURL : String
  author : String
  commentType : String
  tags : String
  relevanceScore : Rat
  commentedAt : Nat
  collectedAt : Nat
  updatedAt : Nat
deriving Repr, DecidableEq

/-- The `documents` table: rows plus the AUTOINCREMENT counter. -/
structure DocumentsTable where
  rows : List DocRow
  nextId : Nat
deriving Repr, DecidableEq

/-- The UNIQUE(repository, pr_number, comment_url) key of the schema:
does row `r` carry the key of document `d`? -/
def docKeyMatches (d : Document) (r : DocRow) : Bool :=
  r.repository == d.repository && r.prNumber == d.prNumber &&
    r.commentURL == d.commentURL

/-- The `tagsStr` serialization in `saveDocument`: Go's
`fmt.Sprintf("%v", tags)` for a non-empty slice, the empty string
otherwise. -/
def tagsSerialize (tags : List String) : String :=
  if tags.length > 0 then "[" ++ String.intercalate " " tags ++ "]" else ""

/-- The row created by the INSERT arm of `saveDocument`. -/
def insertedRow (id : Nat) (d : Document) : DocRow where
  id := id
  summary := d.summary
  originalComment := d.originalComment
  filePath := d.filePath
  directoryPath := d.directoryPath
  language := d.language
  repository := d.repository
  prNumber := d.prNumber
  prTitle := d.prTitle
  prURL := d.prURL
  commentURL := d.commentURL
  author := d.author
  commentType := d.commentType
  tags := tagsSerialize d.tags
  relevanceScore := d.relevanceScore
  commentedAt := d.commentedAt
  collectedAt := d.collectedAt
  updatedAt := d.updatedAt

/-- The `ON CONFLICT ... DO UPDATE SET` arm of `saveDocument`: overwrite
exactly the listed columns from the excluded (new) row, keeping `id`,
`pr_url`, `commented_at` and `collected_at`. -/
def updatedRow (r : DocRow) (d : Document) : DocRow :=
  { r with
    summary := d.summary
    originalComment := d.originalComment
    filePath := d.filePath
    directoryPath := d.directoryPath
    language := d.language
    prTitle := d.prTitle
    author := d.author
    commentType := d.commentType
    tags := tagsSerialize d.tags
    relevanceScore := d.relevanceScore
    updatedAt := d.updatedAt }

/-- `saveDocument`: the single upsert statement against the
`documents` table. -/
def saveDocument (db : DocumentsTable) (d : Document) : DocumentsTable :=
  if db.rows.any (docKeyMatches d) then
    { db with rows := db.rows.map fun r =>
        if docKeyMatches d r then updatedRow r d else r }
  else
    { rows := db.rows ++ [insertedRow db.nextId d], nextId := db.nextId + 1 }

/-- The rows holding a given (repository, PR number, comment URL) key. -/
def rowsForKey (db : DocumentsTable) (repo : String) (pr : Int)
    (url : String) : List DocRow :=
  db.rows.filter fun r =>
    r.repository == repo && r.prNumber == pr && r.commentURL == url

/-- `getProcessedPRNumbers`: `SELECT DISTINCT pr_number FROM documents
WHERE repository = ?` materialised into a `map[int]bool`, modelled by the
map's membership function. -/
def getProcessedPRNumbers (db : DocumentsTable) (repository : String) :
    Int → Bool :=
  fun n => db.rows.any fun r => r.repository == repository && r.prNumber == n

/-- `filterUnprocessedPRs`: keep, in input order, the PRs whose number
the processed map does not hold. -/
def filterUnprocessedPRs (prs : List PullRequest)
    (processedPRs : Int → Bool) : List PullRequest :=
  prs.filter fun pr => !processedPRs pr.number

/-- The WHERE clause of `deletePRData`. -/
def prRowMatches (repository : String) (prNumber : Int) (r : DocRow) : Bool :=
  r.repository == repository && r.prNumber == prNumber

/-- `deletePRData`: `DELETE FROM documents WHERE repository = ? AND
pr_number = ?`, returning the table and the affected-row count. -/
def deletePRData (db : DocumentsTable) (repository : String)
    (prNumber : Int) : DocumentsTable × Nat :=
  let remaining := db.rows.filter fun r => !prRowMatches repository prNumber r
  ({ db with rows := remaining }, db.rows.length - remaining.length)

/-! ### Orchestration loop (`cmd/kcollector/main.go`, Step 2) -/

/-- The collaborators of one collection run: the gh wrapper's per-PR
comment fetch, the LLM analysis of one comment (prompt construction and
driver call composed; only its success or failure matters to the loop),
the fallible SQLite write behind `saveDocument`, the two pure
`FileInfoExtractor` classifiers, and the run's `time.Now()` instant. -/
structure CollectorEnv where
  fetchComments : Int → Except String (List Comment)
  analyzeC : PullRequest → Comment → Except String AnalysisResult
  trySave : DocumentsTable → Document → Except String DocumentsTable
  extractLanguage : String → String
  extractDirectory : String → String
  now : Nat

/-- The fixed fallback `AnalysisResult` substituted when LLM analysis
fails. -/
def fallbackResult (comment : Comment) : AnalysisResult where
  summary := "Review comment about " ++ comment.filePath
  type := "suggestion"
  tags := ["review", "feedback"]
  relevanceScore := (7 : Rat) / 10

/-- The `models.Document` literal built for one filtered comment
(fields the source leaves at their zero value stay at it). -/
def buildDocument (env : CollectorEnv) (targetRepo : String)
    (pr : PullRequest) (comment : Comment) (result : AnalysisResult) :
    Document where
  id := 0
  summary := result.summary
  originalComment := comment.body
  threadContext := ""
  filePath := comment.filePath
  directoryPath := env.extractDirectory comment.filePath
  language := env.extractLanguage comment.filePath
  lineNumber := none
  repository := targetRepo
  prNumber := pr.number
  prTitle := pr.title
  prURL := pr.url
  commentURL := comment.url
  author := comment.author.login
  commentType := result.type
  tags := result.tags
  relevanceScore := result.relevanceScore
  commentedAt := comment.createdAt
  collectedAt := env.now
  updatedAt := env.now

/-- The `result` the loop continues with: the analysis result on
success, the fixed `fallbackResult` on failure. -/
def analysisOutcome (env : CollectorEnv) (pr : PullRequest)
    (comment : Comment) : AnalysisResult :=
  match env.analyzeC pr comment with
  | Except.ok r => r
  | Except.error _ => fallbackResult comment

/-- The body of the inner per-comment loop: analyze (falling back to
`fallbackResult` on error), build the document, attempt the save; a save
failure leaves the state unchanged and the loop continues. The `Nat`
component is `totalDocuments`. -/
def processComment (env : CollectorEnv) (targetRepo : String)
    (pr : PullRequest) (st : DocumentsTable × Nat) (comment : Comment) :
    DocumentsTable × Nat :=
  let document := buildDocument env targetRepo pr comment
    (analysisOutcome env pr comment)
  match env.trySave st.1 document with
  | Except.ok db => (db, st.2 + 1)
  | Except.error _ => (st.1, st.2)

/-- The body of the outer per-PR loop: a comment-fetch failure, an empty
comment list, and an empty filtered list each `continue` to the next PR;
otherwise every filtered comment goes through `processComment`. -/
def processPR (env : CollectorEnv) (targetRepo : String)
    (st : DocumentsTable × Nat) (pr : PullRequest) : DocumentsTable × Nat :=
  match env.fetchComments pr.number with
  | Except.error _ => st
  | Except.ok comments =>
    if comments.isEmpty then st
    else
      let filteredComments := FilterComments NewCommentFilter comments
      if filteredComments.isEmpty then st
      else filteredComments.foldl (processComment env targetRepo pr) st

/-- Steps 1–2 of the default run mode: a PR-list fetch failure is fatal
(`log.Fatalf`, the error value here); otherwise the per-PR loop runs over
the fetched list and the run succeeds. -/
def runCollect (env : CollectorEnv) (targetRepo : String)
    (prFetch : Except String (List PullRequest)) (db : DocumentsTable) :
    Except String (DocumentsTable × Nat) :=
  match prFetch with
  | Except.error e => Except.error e
  | Except.ok prs => Except.ok (prs.foldl (processPR env targetRepo) (db, 0))

/-! ### Review-thread conversion (`GetPRComments` in
`internal/github/gh_wrapper.go`) -/

/-- One comment node of the GraphQL response, with `createdAt` still a
string. -/
structure GQLCommentNode where
  author : Author
  body : String
  createdAt : String
  url : String
deriving Repr, DecidableEq

/-- One review thread of the GraphQL response. -/
structure GQLThread where
  path : String
  line : Int
  comments : List GQLCommentNode
deriving Repr, DecidableEq

/-- The inner loop of `GetPRComments` for one thread: parse each node's
`createdAt` with `time.Parse(time.RFC3339, ·)` — the parameter
`parseTime`, `none` on a parse error — skipping nodes that fail to parse
(`continue`) and attaching the thread's path and line to the rest. -/
def threadComments (parseTime : String → Option Nat) (thread : GQLThread) :
    List Comment :=
  thread.comments.filterMap fun node =>
    (parseTime node.createdAt).map fun t =>
      { author := node.author
        body := node.body
        createdAt := t
        url := node.url
        filePath := thread.path
        lineNumber := thread.line }

/-- The nested loop of `GetPRComments`: one accumulated list over the
threads in response order. -/
def convertThreads (parseTime : String → Option Nat)
    (threads : List GQLThread) : List Comment :=
  threads.foldl (fun acc thread => acc ++ threadComments parseTime thread) []

/-- `GetPRComments` after the GraphQL call: `response` composes the
`gh api graphql` invocation and the JSON decode (`.error` for either
failing), `ok none` is a null `pullRequest`, and a decoded thread list is
converted with `convertThreads`. -/
def GetPRComments (response : Except String (Option (List GQLThread)))
    (parseTime : String → Option Nat) : Except String (List Comment) :=
  match response with
  | Except.error e => Except.error ("failed to execute gh GraphQL query: " ++ e)
  | Except.ok none => Except.error "PR not found"
  | Except.ok (some threads) => Except.ok (convertThreads parseTime threads)

/-! ## Theorems -/

/-- The substantive review sentence of the whole-word filtering test
case. -/
def c1LongBody : String :=
  "thanks for catching that, I also noticed a null check missing in the validator"

/-- C1 (counterexample): contrary to the claim, the substantive sentence
`"thanks for catching that, I also noticed a null check missing in the
validator"` from a non-denylisted author is judged NOT useful: the listed
phrase "thanks" occurs as a whole word, and `IsUseful` filters on
whole-word occurrence anywhere in the body, not only on an exact
whole-body match. -/
theorem c1_counterexample :
    IsUseful NewCommentFilter
      { author := { login := "alice" }, body := c1LongBody, createdAt := 0,
        url := "", filePath := "", lineNumber := 0 } = false := by
  decide

/-- C1 (amended): `"thanks!"` from a human author is filtered (it fails
the 10-byte minimum length); the longer substantive sentence is ALSO
filtered, because a listed phrase occurring as a whole word
(whitespace-split, punctuation-trimmed) anywhere in the lower-cased
trimmed body makes the comment not useful — an exact whole-body match is
not required. -/
theorem c1_filter_matching :
    IsUseful NewCommentFilter
      { author := { login := "alice" }, body := "thanks!", createdAt := 0,
        url := "", filePath := "", lineNumber := 0 } = false ∧
    IsUseful NewCommentFilter
      { author := { login := "alice" }, body := c1LongBody, createdAt := 0,
        url := "", filePath := "", lineNumber := 0 } = false ∧
    ∀ (c : Comment) (p : String),
      p ∈ NewCommentFilter.excludePatterns →
      goContains (goToLower (trimSpace c.body)) p = true →
      isWordMatch (goToLower (trimSpace c.body)) p = true →
      IsUseful NewCommentFilter c = false := by
  refine ⟨by decide, by decide, ?_⟩
  intro c p hmem hcont hword
  have hany : (NewCommentFilter.excludePatterns.any fun pat =>
      goContains (goToLower (trimSpace c.body)) pat &&
        (goToLower (trimSpace c.body) == pat ||
          isWordMatch (goToLower (trimSpace c.body)) pat)) = true := by
    rw [List.any_eq_true]
    exact ⟨p, hmem, by rw [hcont, hword]; simp⟩
  simp [IsUseful, hany]

/-- C1 witness: the amended theorem's whole-word clause applied to the
long body and the pattern "thanks". -/
theorem c1_filter_matching_witness :
    ("thanks" ∈ NewCommentFilter.excludePatterns ∧
      goContains (goToLower (trimSpace c1LongBody)) "thanks" = true ∧
      isWordMatch (goToLower (trimSpace c1LongBody)) "thanks" = true) ∧
    IsUseful NewCommentFilter
      { author := { login := "bob" }, body := c1LongBody, createdAt := 0,
        url := "", filePath := "", lineNumber := 0 } = false :=
  ⟨⟨by decide, by decide, by decide⟩,
    c1_filter_matching.2.2
      { author := { login := "bob" }, body := c1LongBody, createdAt := 0,
        url := "", filePath := "", lineNumber := 0 } "thanks"
      (by decide) (by decide) (by decide)⟩

/-! ### Upsert lemmas (shared by the persistence claims) -/

/-- `docKeyMatches` reads only the key triple of the document. -/
theorem docKeyMatches_congr (d1 d2 : Document) (r : DocRow)
    (hrepo : d2.repository = d1.repository) (hpr : d2.prNumber = d1.prNumber)
    (hurl : d2.commentURL = d1.commentURL) :
    docKeyMatches d2 r = docKeyMatches d1 r := by
  simp [docKeyMatches, hrepo, hpr, hurl]

/-- A freshly inserted row carries its document's key. -/
theorem docKeyMatches_insertedRow (d : Document) (id : Nat) :
    docKeyMatches d (insertedRow id d) = true := by
  simp [docKeyMatches, insertedRow]

/-- The conflict update leaves the key columns untouched. -/
theorem docKeyMatches_updatedRow (d : Document) (r : DocRow) (d' : Document) :
    docKeyMatches d (updatedRow r d') = docKeyMatches d r := by
  simp [docKeyMatches, updatedRow]

/-- `rowsForKey` at a document's own key triple is a filter by
`docKeyMatches`. -/
theorem rowsForKey_eq_filter (db : DocumentsTable) (d : Document) :
    rowsForKey db d.repository d.prNumber d.commentURL =
      db.rows.filter (docKeyMatches d) := rfl

/-- A list none of whose elements satisfies `p` filters to nil. -/
theorem filter_eq_nil_of_any_eq_false {α : Type} {p : α → Bool} {l : List α}
    (h : l.any p = false) : l.filter p = [] := by
  refine List.filter_eq_nil_iff.mpr ?_
  intro a ha
  have := List.any_eq_false.mp h a ha
  simpa using this

/-- Saving a document twice onto a table that does not yet hold its key:
the first save appends the inserted row, the second save rewrites exactly
that row through the conflict update. -/
theorem saveDocument_twice_fresh (db : DocumentsTable) (d1 d2 : Document)
    (hrepo : d2.repository = d1.repository) (hpr : d2.prNumber = d1.prNumber)
    (hurl : d2.commentURL = d1.commentURL)
    (hfresh : db.rows.any (docKeyMatches d1) = false) :
    saveDocument (saveDocument db d1) d2 =
      { rows := db.rows ++ [updatedRow (insertedRow db.nextId d1) d2],
        nextId := db.nextId + 1 } := by
  have hnotin : ∀ r ∈ db.rows, docKeyMatches d1 r = false := by
    intro r hr
    have := List.any_eq_false.mp hfresh r hr
    simpa using this
  have hsave1 : saveDocument db d1 =
      { rows := db.rows ++ [insertedRow db.nextId d1],
        nextId := db.nextId + 1 } := by
    simp [saveDocument, hfresh]
  rw [hsave1]
  have hany2 :
      ((db.rows ++ [insertedRow db.nextId d1]).any (docKeyMatches d2)) = true := by
    rw [List.any_eq_true]
    refine ⟨insertedRow db.nextId d1, by simp, ?_⟩
    rw [docKeyMatches_congr d1 d2 _ hrepo hpr hurl, docKeyMatches_insertedRow]
  simp only [saveDocument, hany2, if_true]
  have hmap :
      (db.rows.map fun r =>
        if docKeyMatches d2 r then updatedRow r d2 else r) = db.rows := by
    have hcongr : ∀ r ∈ db.rows,
        (if docKeyMatches d2 r then updatedRow r d2 else r) = id r := by
      intro r hr
      rw [docKeyMatches_congr d1 d2 r hrepo hpr hurl, hnotin r hr]
      simp
    rw [List.map_congr_left hcongr, List.map_id]
  have hone : docKeyMatches d2 (insertedRow db.nextId d1) = true := by
    rw [docKeyMatches_congr d1 d2 _ hrepo hpr hurl, docKeyMatches_insertedRow]
  simp only [List.map_append, hmap, List.map_cons, List.map_nil, hone, if_true]

/-- C2: saving the same (repository, PR number, comment URL) triple twice
onto a table not yet holding it leaves exactly one row for that triple;
the row carries the second summary and updated-at while its identifier is
the one assigned by the first save and its collection timestamp is the
first save's. -/
theorem c2_upsert_idempotent (db : DocumentsTable) (d1 d2 : Document)
    (hrepo : d2.repository = d1.repository) (hpr : d2.prNumber = d1.prNumber)
    (hurl : d2.commentURL = d1.commentURL)
    (hfresh : db.rows.any (docKeyMatches d1) = false) :
    rowsForKey (saveDocument (saveDocument db d1) d2)
        d1.repository d1.prNumber d1.commentURL
      = [updatedRow (insertedRow db.nextId d1) d2] ∧
    (updatedRow (insertedRow db.nextId d1) d2).summary = d2.summary ∧
    (updatedRow (insertedRow db.nextId d1) d2).updatedAt = d2.updatedAt ∧
    (updatedRow (insertedRow db.nextId d1) d2).id = db.nextId ∧
    (updatedRow (insertedRow db.nextId d1) d2).collectedAt = d1.collectedAt := by
  refine ⟨?_, rfl, rfl, rfl, rfl⟩
  rw [saveDocument_twice_fresh db d1 d2 hrepo hpr hurl hfresh,
    rowsForKey_eq_filter, List.filter_append,
    filter_eq_nil_of_any_eq_false hfresh]
  have hkey : docKeyMatches d1 (updatedRow (insertedRow db.nextId d1) d2) = true := by
    rw [docKeyMatches_updatedRow, docKeyMatches_insertedRow]
  simp [hkey]

/-- A concrete document for the persistence witnesses. -/
def sampleDoc1 : Document where
  id := 0
  summary := "first summary"
  originalComment := "original comment one"
  threadContext := ""
  filePath := "a.go"
  directoryPath := "."
  language := "go"
  lineNumber := none
  repository := "owner/repo"
  prNumber := 123
  prTitle := "Title one"
  prURL := "https://github.com/owner/repo/pull/123"
  commentURL := "https://github.com/owner/repo/pull/123#c1"
  author := "alice"
  commentType := "bug"
  tags := ["x"]
  relevanceScore := 1
  commentedAt := 5
  collectedAt := 10
  updatedAt := 10

/-- A second save of the same key triple with different mutable fields. -/
def sampleDoc2 : Document :=
  { sampleDoc1 with
    summary := "second summary"
    originalComment := "original comment two"
    filePath := "b.go"
    directoryPath := "pkg"
    language := "go2"
    prTitle := "Title two"
    prURL := "https://example.invalid/changed"
    author := "carol"
    commentType := "security"
    tags := ["y", "z"]
    relevanceScore := 1 / 2
    commentedAt := 6
    collectedAt := 30
    updatedAt := 20 }

/-- C2 witness: the idempotent-upsert theorem at an empty table and the
two concrete documents above. -/
theorem c2_upsert_idempotent_witness :
    ((⟨[], 1⟩ : DocumentsTable).rows.any (docKeyMatches sampleDoc1) = false ∧
      sampleDoc2.repository = sampleDoc1.repository) ∧
    rowsForKey (saveDocument (saveDocument ⟨[], 1⟩ sampleDoc1) sampleDoc2)
        sampleDoc1.repository sampleDoc1.prNumber sampleDoc1.commentURL
      = [updatedRow (insertedRow 1 sampleDoc1) sampleDoc2] :=
  ⟨⟨by decide, rfl⟩,
    (c2_upsert_idempotent ⟨[], 1⟩ sampleDoc1 sampleDoc2 rfl rfl rfl (by decide)).1⟩

/-- C9: on a key conflict the upsert overwrites summary, original
comment, file path, directory path, language, PR title, author, comment
type, tags and relevance score (and updated-at) from the new save, while
PR URL, commented-at, collected-at and the row identifier keep the values
of the first insert. -/
theorem c9_upsert_frame (db : DocumentsTable) (d1 d2 : Document)
    (hrepo : d2.repository = d1.repository) (hpr : d2.prNumber = d1.prNumber)
    (hurl : d2.commentURL = d1.commentURL)
    (hfresh : db.rows.any (docKeyMatches d1) = false) :
    rowsForKey (saveDocument (saveDocument db d1) d2)
        d1.repository d1.prNumber d1.commentURL
      = [updatedRow (insertedRow db.nextId d1) d2] ∧
    (updatedRow (insertedRow db.nextId d1) d2).summary = d2.summary ∧
    (updatedRow (insertedRow db.nextId d1) d2).originalComment = d2.originalComment ∧
    (updatedRow (insertedRow db.nextId d1) d2).filePath = d2.filePath ∧
    (updatedRow (insertedRow db.nextId d1) d2).directoryPath = d2.directoryPath ∧
    (updatedRow (insertedRow db.nextId d1) d2).language = d2.language ∧
    (updatedRow (insertedRow db.nextId d1) d2).prTitle = d2.prTitle ∧
    (updatedRow (insertedRow db.nextId d1) d2).author = d2.author ∧
    (updatedRow (insertedRow db.nextId d1) d2).commentType = d2.commentType ∧
    (updatedRow (insertedRow db.nextId d1) d2).tags = tagsSerialize d2.tags ∧
    (updatedRow (insertedRow db.nextId d1) d2).relevanceScore = d2.relevanceScore ∧
    (updatedRow (insertedRow db.nextId d1) d2).updatedAt = d2.updatedAt ∧
    (updatedRow (insertedRow db.nextId d1) d2).prURL = d1.prURL ∧
    (updatedRow (insertedRow db.nextId d1) d2).commentedAt = d1.commentedAt ∧
    (updatedRow (insertedRow db.nextId d1) d2).collectedAt = d1.collectedAt ∧
    (updatedRow (insertedRow db.nextId d1) d2).id = db.nextId := by
  refine ⟨?_, rfl, rfl, rfl, rfl, rfl, rfl, rfl, rfl, rfl, rfl, rfl, rfl,
    rfl, rfl, rfl⟩
  rw [saveDocument_twice_fresh db d1 d2 hrepo hpr hurl hfresh,
    rowsForKey_eq_filter, List.filter_append,
    filter_eq_nil_of_any_eq_false hfresh]
  have hkey : docKeyMatches d1 (updatedRow (insertedRow db.nextId d1) d2) = true := by
    rw [docKeyMatches_updatedRow, docKeyMatches_insertedRow]
  simp [hkey]

/-- C9 witness: the frame theorem at an empty table and the two concrete
documents, observing a kept field and an overwritten one. -/
theorem c9_upsert_frame_witness :
    ((⟨[], 7⟩ : DocumentsTable).rows.any (docKeyMatches sampleDoc1) = false ∧
      sampleDoc2.commentURL = sampleDoc1.commentURL) ∧
    (updatedRow (insertedRow 7 sampleDoc1) sampleDoc2).prURL = sampleDoc1.prURL ∧
    (updatedRow (insertedRow 7 sampleDoc1) sampleDoc2).collectedAt = sampleDoc1.collectedAt :=
  ⟨⟨by decide, rfl⟩,
    (c9_upsert_frame ⟨[], 7⟩ sampleDoc1 sampleDoc2 rfl rfl rfl (by decide)).2.2.2.2.2.2.2.2.2.2.2.2.1,
    (c9_upsert_frame ⟨[], 7⟩ sampleDoc1 sampleDoc2 rfl rfl rfl (by decide)).2.2.2.2.2.2.2.2.2.2.2.2.2.2.1⟩

/-! ### Analysis-driver attempt behaviour -/

/-- A well-formed driver reply (a bare JSON object, written with escaped
curly brackets). -/
def c3GoodOutput : String :=
  "\x7b\"summary\": \"s\", \"type\": \"bug\", \"tags\": [], \"relevance_score\": 0.8\x7d"

/-- The structured result encoded by `c3GoodOutput`. -/
def c3GoodResult : AnalysisResult where
  summary := "s"
  type := "bug"
  tags := []
  relevanceScore := 4 / 5

/-- A stateful external driver that fails its first two invocations and
succeeds from the third on. -/
def c3Flaky : Nat → Except String String := fun n =>
  if n ≤ 2 then Except.error "transient failure" else Except.ok c3GoodOutput

/-- A JSON decoder recognising exactly `c3GoodOutput`. -/
def c3Unmarshal : String → Option AnalysisResult := fun s =>
  if s = c3GoodOutput then some c3GoodResult else none

/-- C3 (counterexample): against a driver that fails its first two
attempts and succeeds on the third, `AnalyzeComment` returns the first
failure after a single executor invocation — not the successful result —
even though invoking the third attempt directly would succeed. -/
theorem c3_counterexample :
    AnalyzeCommentAttempts c3Flaky c3Unmarshal "test prompt"
      = (Except.error "LLM command failed: transient failure", 1) ∧
    AnalyzeComment (fun _ => c3Flaky 3) c3Unmarshal "test prompt"
      = Except.ok c3GoodResult := by
  constructor
  · rfl
  · rfl

/-- C3 (amended): the analysis path performs no retries — every
`AnalyzeComment` call with a non-empty prompt makes exactly one executor
invocation and surfaces a first-attempt failure as its error (an empty
prompt makes none), while the retry configuration defaults
(`MaxAttempts` 3, `InitialDelay` 1s, `MaxDelay` 10s) are populated by
`config.Load` but not consulted by the analysis path. -/
theorem c3_no_retry :
    (∀ (execute : Nat → Except String String)
        (unmarshal : String → Option AnalysisResult) (prompt : String),
      prompt ≠ "" → (AnalyzeCommentAttempts execute unmarshal prompt).2 = 1) ∧
    (∀ (execute : Nat → Except String String)
        (unmarshal : String → Option AnalysisResult) (prompt e : String),
      prompt ≠ "" → execute 1 = Except.error e →
      (AnalyzeCommentAttempts execute unmarshal prompt).1 =
        Except.error ("LLM command failed: " ++ e)) ∧
    (AnalyzeCommentAttempts c3Flaky c3Unmarshal "").2 = 0 ∧
    (applyLoadDefaults zeroConfig).llm.retry =
      { maxAttempts := 3, initialDelay := timeSecond,
        maxDelay := 10 * timeSecond } := by
  refine ⟨?_, ?_, by decide, by decide⟩
  · intro execute unmarshal prompt h
    simp [AnalyzeCommentAttempts, h]
  · intro execute unmarshal prompt e h hexec
    simp [AnalyzeCommentAttempts, AnalyzeComment, h, hexec]

/-- C3 witness: the no-retry theorem at the flaky driver and a concrete
prompt. -/
theorem c3_no_retry_witness :
    (("p" : String) ≠ "" ∧ c3Flaky 1 = Except.error "transient failure") ∧
    (AnalyzeCommentAttempts c3Flaky c3Unmarshal "p").2 = 1 ∧
    (AnalyzeCommentAttempts c3Flaky c3Unmarshal "p").1 =
      Except.error ("LLM command failed: " ++ "transient failure") :=
  ⟨⟨by decide, rfl⟩,
    c3_no_retry.1 c3Flaky c3Unmarshal "p" (by decide),
    c3_no_retry.2.1 c3Flaky c3Unmarshal "p" "transient failure"
      (by decide) rfl⟩

/-! ### Orchestrator error policy -/

/-- A useful review comment for the orchestrator witnesses. -/
def sampleComment : Comment where
  author := { login := "reviewer1" }
  body := "Please add input validation for this endpoint handler."
  createdAt := 3
  url := "https://github.com/o/r/pull/1#c1"
  filePath := "srv/handler.go"
  lineNumber := 42

/-- A pull request for the orchestrator witnesses. -/
def samplePR : PullRequest where
  number := 1
  title := "Add handler"
  url := "https://github.com/o/r/pull/1"
  createdAt := 2
  author := { login := "dev" }
  labels := []

/-- An environment whose analysis always fails and whose persistence is
the plain upsert. -/
def c4Env : CollectorEnv where
  fetchComments := fun _ => Except.ok [sampleComment]
  analyzeC := fun _ _ => Except.error "llm unavailable"
  trySave := fun db d => Except.ok (saveDocument db d)
  extractLanguage := fun _ => "go"
  extractDirectory := fun _ => "srv"
  now := 100

/-- C4: when analysis of a filtered comment fails, the loop substitutes
the fixed `fallbackResult` and still builds and attempts to save a
Document; and a run whose PR-list fetch succeeded never returns an error,
whatever the analysis outcomes. -/
theorem c4_analysis_failure_never_drops :
    (∀ (env : CollectorEnv) (targetRepo : String) (pr : PullRequest)
        (comment : Comment) (st : DocumentsTable × Nat) (e : String),
      env.analyzeC pr comment = Except.error e →
      processComment env targetRepo pr st comment =
        match env.trySave st.1
            (buildDocument env targetRepo pr comment (fallbackResult comment)) with
        | Except.ok db => (db, st.2 + 1)
        | Except.error _ => (st.1, st.2)) ∧
    (∀ (env : CollectorEnv) (targetRepo : String) (prs : List PullRequest)
        (db : DocumentsTable),
      ∃ result, runCollect env targetRepo (Except.ok prs) db
        = Except.ok result) := by
  constructor
  · intro env targetRepo pr comment st e h
    simp [processComment, analysisOutcome, h]
  · intro env targetRepo prs db
    exact ⟨_, rfl⟩

/-- C4 witness: the degradation theorem at the always-failing environment
and a concrete comment, plus the non-aborting run. -/
theorem c4_analysis_failure_never_drops_witness :
    (c4Env.analyzeC samplePR sampleComment = Except.error "llm unavailable") ∧
    processComment c4Env "o/r" samplePR (⟨[], 1⟩, 0) sampleComment =
      (match c4Env.trySave (⟨[], 1⟩ : DocumentsTable)
          (buildDocument c4Env "o/r" samplePR sampleComment
            (fallbackResult sampleComment)) with
        | Except.ok db => (db, 1)
        | Except.error _ => (⟨[], 1⟩, 0)) ∧
    ∃ result, runCollect c4Env "o/r" (Except.ok [samplePR]) ⟨[], 1⟩
      = Except.ok result :=
  ⟨rfl,
    c4_analysis_failure_never_drops.1 c4Env "o/r" samplePR sampleComment
      (⟨[], 1⟩, 0) "llm unavailable" rfl,
    c4_analysis_failure_never_drops.2 c4Env "o/r" [samplePR] ⟨[], 1⟩⟩

/-- An environment whose comment fetch fails for PR number 7 and whose
persistence always fails. -/
def c5Env : CollectorEnv where
  fetchComments := fun n =>
    if n = 7 then Except.error "comment fetch failed" else Except.ok []
  analyzeC := fun _ _ => Except.ok c3GoodResult
  trySave := fun _ _ => Except.error "disk full"
  extractLanguage := fun _ => "go"
  extractDirectory := fun _ => "."
  now := 0

/-- C5: a PR-list fetch failure is fatal and becomes the run's error; a
comment-fetch failure for one PR skips exactly that PR and the fold
continues over the rest; a persistence failure for one document leaves
the state unchanged and the fold continues over the remaining
comments. -/
theorem c5_error_propagation :
    (∀ (env : CollectorEnv) (targetRepo e : String) (db : DocumentsTable),
      runCollect env targetRepo (Except.error e) db = Except.error e) ∧
    (∀ (env : CollectorEnv) (targetRepo : String) (st : DocumentsTable × Nat)
        (pr : PullRequest) (prs : List PullRequest) (e : String),
      env.fetchComments pr.number = Except.error e →
      (pr :: prs).foldl (processPR env targetRepo) st
        = prs.foldl (processPR env targetRepo) st) ∧
    (∀ (env : CollectorEnv) (targetRepo : String) (pr : PullRequest)
        (st : DocumentsTable × Nat) (comment : Comment) (cs : List Comment)
        (e : String),
      env.trySave st.1 (buildDocument env targetRepo pr comment
        (analysisOutcome env pr comment)) = Except.error e →
      (comment :: cs).foldl (processComment env targetRepo pr) st
        = cs.foldl (processComment env targetRepo pr) st) := by
  refine ⟨fun env targetRepo e db => rfl, ?_, ?_⟩
  · intro env targetRepo st pr prs e h
    rw [List.foldl_cons, show processPR env targetRepo st pr = st from by
      simp [processPR, h]]
  · intro env targetRepo pr st comment cs e h
    rw [List.foldl_cons, show processComment env targetRepo pr st comment = st from by
      simp [processComment, h]]

/-- C5 witness: the propagation theorem at the concrete environment — a
fatal list-fetch error, a skipped PR 7, and a save failure that does not
stop the comment fold. -/
theorem c5_error_propagation_witness :
    (c5Env.fetchComments (7 : Int) = Except.error "comment fetch failed" ∧
      c5Env.trySave (⟨[], 1⟩ : DocumentsTable)
        (buildDocument c5Env "o/r" samplePR sampleComment
          (analysisOutcome c5Env samplePR sampleComment))
        = Except.error "disk full") ∧
    runCollect c5Env "o/r" (Except.error "pr list fetch failed") ⟨[], 1⟩
      = Except.error "pr list fetch failed" ∧
    ([{ samplePR with number := 7 }, samplePR].foldl (processPR c5Env "o/r") (⟨[], 1⟩, 0)
      = [samplePR].foldl (processPR c5Env "o/r") (⟨[], 1⟩, 0)) ∧
    ([sampleComment].foldl (processComment c5Env "o/r" samplePR) (⟨[], 1⟩, 0)
      = (⟨[], 1⟩, 0)) :=
  ⟨⟨rfl, rfl⟩,
    c5_error_propagation.1 c5Env "o/r" "pr list fetch failed" ⟨[], 1⟩,
    c5_error_propagation.2.1 c5Env "o/r" (⟨[], 1⟩, 0) { samplePR with number := 7 }
      [samplePR] "comment fetch failed" rfl,
    c5_error_propagation.2.2 c5Env "o/r" samplePR (⟨[], 1⟩, 0) sampleComment
      [] "disk full" rfl⟩

/-! ### Processed-PR index and reprocess delete -/

/-- A stored row with the given identity and fixed filler content. -/
def sampleRow (id : Nat) (repo : String) (pr : Int) (url : String) : DocRow where
  id := id
  summary := "s"
  originalComment := "o"
  filePath := "f.go"
  directoryPath := "."
  language := "go"
  repository := repo
  prNumber := pr
  prTitle := "t"
  prURL := "u"
  commentURL := url
  author := "a"
  commentType := "bug"
  tags := ""
  relevanceScore := 1
  commentedAt := 0
  collectedAt := 0
  updatedAt := 0

/-- A table whose documents for `owner/repo` cover PR numbers 123 and 124
only (plus a row of an unrelated repository). -/
def c6Db : DocumentsTable where
  rows :=
    [ sampleRow 1 "owner/repo" 123 "c1",
      sampleRow 2 "owner/repo" 124 "c2",
      sampleRow 3 "owner/repo" 123 "c3",
      sampleRow 4 "other/repo" 999 "c4" ]
  nextId := 5

/-- A candidate pull request with the given number. -/
def c6PR (n : Int) : PullRequest where
  number := n
  title := "PR"
  url := "u"
  createdAt := 0
  author := { login := "dev" }
  labels := []

/-- C6: over a table whose documents for the repository cover PR numbers
123 and 124 only, `getProcessedPRNumbers` holds exactly \x7b123, 124\x7d;
and filtering the candidate list [100, 101, 102, 103] against the
processed set \x7b101, 103\x7d yields [100, 102] in input order. -/
theorem c6_skip_processed :
    (∀ n : Int,
      getProcessedPRNumbers c6Db "owner/repo" n = true ↔ n = 123 ∨ n = 124) ∧
    filterUnprocessedPRs [c6PR 100, c6PR 101, c6PR 102, c6PR 103]
        (fun n => n == 101 || n == 103)
      = [c6PR 100, c6PR 102] := by
  constructor
  · intro n
    simp [getProcessedPRNumbers, c6Db, sampleRow]
    omega
  · decide

/-- C7: `deletePRData` removes every row of the given
(repository, PR number) pair and only those — rows of any other pair are
exactly the rows the table already had. -/
theorem c7_delete_exact :
    (∀ (db : DocumentsTable) (repo : String) (n : Int),
      (deletePRData db repo n).1.rows.filter (prRowMatches repo n) = []) ∧
    (∀ (db : DocumentsTable) (repo : String) (n : Int)
        (repo' : String) (n' : Int),
      ¬(repo' = repo ∧ n' = n) →
      (deletePRData db repo n).1.rows.filter (prRowMatches repo' n')
        = db.rows.filter (prRowMatches repo' n')) := by
  constructor
  · intro db repo n
    simp only [deletePRData]
    rw [List.filter_filter]
    have hptw : ∀ r ∈ db.rows,
        (prRowMatches repo n r && !prRowMatches repo n r) = (fun _ => false) r := by
      intro r _
      cases prRowMatches repo n r <;> simp
    rw [List.filter_congr hptw, List.filter_false]
  · intro db repo n repo' n' hne
    simp only [deletePRData]
    rw [List.filter_filter]
    refine List.filter_congr ?_
    intro r _
    by_cases h' : prRowMatches repo' n' r = true
    · have hks : r.repository = repo' ∧ r.prNumber = n' := by
        simpa [prRowMatches] using h'
      have hfalse : prRowMatches repo n r = false := by
        simp only [prRowMatches, hks.1, hks.2]
        by_cases h1 : repo' = repo
        · have h2 : n' ≠ n := fun h2 => hne ⟨h1, h2⟩
          simp [h1, h2]
        · simp [h1]
      simp [h', hfalse]
    · simp [Bool.of_not_eq_true h']

/-- C7 witness: deleting (owner/repo, 123) from the concrete table leaves
no row for that pair while the rows for (owner/repo, 124) are exactly the
original ones. -/
theorem c7_delete_exact_witness :
    (¬(("owner/repo" : String) = "owner/repo" ∧ (124 : Int) = 123)) ∧
    (deletePRData c6Db "owner/repo" 123).1.rows.filter
        (prRowMatches "owner/repo" 124)
      = c6Db.rows.filter (prRowMatches "owner/repo" 124) ∧
    (deletePRData c6Db "owner/repo" 123).1.rows.filter
        (prRowMatches "owner/repo" 123) = [] :=
  ⟨by decide,
    c7_delete_exact.2 c6Db "owner/repo" 123 "owner/repo" 124 (by decide),
    c7_delete_exact.1 c6Db "owner/repo" 123⟩

/-! ### JSON extraction stages -/

/-- A driver reply wrapping its JSON object in a fenced code block
(curly brackets and backquotes written as escapes). -/
def c8FencedOutput : String :=
  "\x60\x60\x60json\n\x7b\"summary\": \"Feature flag check\", \"type\": \"suggestion\"\x7d\n\x60\x60\x60"

/-- The JSON object inside `c8FencedOutput`. -/
def c8FencedInner : String :=
  "\x7b\"summary\": \"Feature flag check\", \"type\": \"suggestion\"\x7d"

/-- A bare JSON object. -/
def c8BareJSON : String := "\x7b\"summary\": \"test\", \"type\": \"bug\"\x7d"

/-- A reply surrounding a JSON object with prose. -/
def c8Noise : String := "Here is the result: " ++ c8BareJSON ++ " hope it helps"

/-- C8: `extractJSON` proceeds in exactly three ordered stages — fenced
code block, then brace object in the raw output, then the whole trimmed
output — and `AnalyzeComment` errors when the selected text fails to
parse as JSON and when the external process returns an empty output. -/
theorem c8_extract_stages :
    (∀ (output m : String), extractCodeBlock output = some m →
      extractJSON output = trimSpace m) ∧
    (∀ (output j : String), extractCodeBlock output = none →
      extractBraceObj output = some j → extractJSON output = trimSpace j) ∧
    (∀ output : String, extractCodeBlock output = none →
      extractBraceObj output = none → extractJSON output = trimSpace output) ∧
    extractJSON c8FencedOutput = c8FencedInner ∧
    extractJSON c8Noise = c8BareJSON ∧
    extractJSON "  plain, not JSON  " = "plain, not JSON" ∧
    (∀ (execute : String → Except String String)
        (unmarshal : String → Option AnalysisResult) (prompt output : String),
      prompt ≠ "" → execute prompt = Except.ok output → output ≠ "" →
      unmarshal (extractJSON output) = none →
      AnalyzeComment execute unmarshal prompt
        = Except.error "failed to parse LLM output") ∧
    (∀ (execute : String → Except String String)
        (unmarshal : String → Option AnalysisResult) (prompt : String),
      prompt ≠ "" → execute prompt = Except.ok "" →
      AnalyzeComment execute unmarshal prompt
        = Except.error "LLM returned empty response") := by
  refine ⟨?_, ?_, ?_, by decide, by decide, by decide, ?_, ?_⟩
  · intro output m h
    simp [extractJSON, h]
  · intro output j h1 h2
    simp [extractJSON, h1, h2]
  · intro output h1 h2
    simp [extractJSON, h1, h2]
  · intro execute unmarshal prompt output hp hexec hne hparse
    simp [AnalyzeComment, hp, hexec, hne, hparse]
  · intro execute unmarshal prompt hp hexec
    simp [AnalyzeComment, hp, hexec]

/-- C8 witness: the parse-failure and empty-output clauses at concrete
executors. -/
theorem c8_extract_stages_witness :
    (("p" : String) ≠ "" ∧ ("no json here at all" : String) ≠ "") ∧
    AnalyzeComment (fun _ => Except.ok "no json here at all") (fun _ => none) "p"
      = Except.error "failed to parse LLM output" ∧
    AnalyzeComment (fun _ => Except.ok "") (fun _ => none) "p"
      = Except.error "LLM returned empty response" :=
  ⟨⟨by decide, by decide⟩,
    c8_extract_stages.2.2.2.2.2.2.1 (fun _ => Except.ok "no json here at all")
      (fun _ => none) "p" "no json here at all" (by decide) rfl (by decide) rfl,
    c8_extract_stages.2.2.2.2.2.2.2 (fun _ => Except.ok "") (fun _ => none) "p"
      (by decide) rfl⟩

/-! ### Review-thread conversion -/

/-- Folding list appends from an accumulator is flat-mapping. -/
theorem foldl_append_eq_flatMap {α β : Type} (f : α → List β) :
    ∀ (l : List α) (acc : List β),
      l.foldl (fun a t => a ++ f t) acc = acc ++ l.flatMap f
  | [], acc => by simp
  | t :: ts, acc => by
    rw [List.foldl_cons, foldl_append_eq_flatMap f ts, List.flatMap_cons,
      List.append_assoc]

/-- A parser recognising the two valid timestamps of the C10 scenario. -/
def c10Parse : String → Option Nat := fun s =>
  if s = "2024-01-15T10:00:00Z" then some 100
  else if s = "2024-01-15T11:00:00Z" then some 200
  else none

/-- Two review threads; the second node of the first thread carries an
invalid `createdAt`. -/
def c10Threads : List GQLThread :=
  [ { path := "a.go", line := 5,
      comments :=
        [ { author := { login := "r1" }, body := "first",
            createdAt := "2024-01-15T10:00:00Z", url := "u1" },
          { author := { login := "r2" }, body := "second",
            createdAt := "not-a-timestamp", url := "u2" } ] },
    { path := "b.ts", line := 9,
      comments :=
        [ { author := { login := "r3" }, body := "third",
            createdAt := "2024-01-15T11:00:00Z", url := "u3" } ] } ]

/-- C10: `GetPRComments` silently drops review comments whose `createdAt`
fails to parse — the conversion never errors, every produced comment
comes from a node whose timestamp parsed and carries its thread's path
and line, threads are flattened in response order, and on the concrete
scenario the invalid middle comment is omitted while the two valid ones
survive in order. -/
theorem c10_invalid_timestamps_skipped :
    (∀ (parseTime : String → Option Nat) (threads : List GQLThread),
      convertThreads parseTime threads
        = threads.flatMap (threadComments parseTime)) ∧
    (∀ (parseTime : String → Option Nat) (thread : GQLThread) (c : Comment),
      c ∈ threadComments parseTime thread →
      c.filePath = thread.path ∧ c.lineNumber = thread.line ∧
      ∃ node ∈ thread.comments,
        parseTime node.createdAt = some c.createdAt ∧
        c.author = node.author ∧ c.body = node.body ∧ c.url = node.url) ∧
    (∀ (parseTime : String → Option Nat) (threads : List GQLThread),
      GetPRComments (Except.ok (some threads)) parseTime
        = Except.ok (convertThreads parseTime threads)) ∧
    convertThreads c10Parse c10Threads
      = [ { author := { login := "r1" }, body := "first", createdAt := 100,
            url := "u1", filePath := "a.go", lineNumber := 5 },
          { author := { login := "r3" }, body := "third", createdAt := 200,
            url := "u3", filePath := "b.ts", lineNumber := 9 } ] := by
  refine ⟨?_, ?_, fun _ _ => rfl, by decide⟩
  · intro parseTime threads
    rw [convertThreads, foldl_append_eq_flatMap]
    simp
  · intro parseTime thread c hc
    rw [threadComments, List.mem_filterMap] at hc
    obtain ⟨node, hmem, hmap⟩ := hc
    rw [Option.map_eq_some'] at hmap
    obtain ⟨t, hpt, heq⟩ := hmap
    subst heq
    exact ⟨rfl, rfl, node, hmem, hpt, rfl, rfl, rfl⟩

/-- C10 witness: the per-comment clause at the first produced comment of
the concrete scenario. -/
theorem c10_invalid_timestamps_skipped_witness :
    ({ author := { login := "r1" }, body := "first", createdAt := 100,
       url := "u1", filePath := "a.go", lineNumber := 5 : Comment }
        ∈ threadComments c10Parse (c10Threads.get ⟨0, by decide⟩)) ∧
    ({ author := { login := "r1" }, body := "first", createdAt := 100,
       url := "u1", filePath := "a.go", lineNumber := 5 : Comment }.filePath
        = (c10Threads.get ⟨0, by decide⟩).path) :=
  ⟨by decide,
    (c10_invalid_timestamps_skipped.2.1 c10Parse (c10Threads.get ⟨0, by decide⟩)
      { author := { login := "r1" }, body := "first", createdAt := 100,
        url := "u1", filePath := "a.go", lineNumber := 5 } (by decide)).1⟩

end Knowledges
